import Mathlib

/-!
Verification of the UAS_processing pipeline (UAS_GPXandJPG_processing notebook).

The notebook ingests a GPX telemetry log and a folder of aerial photographs,
builds a telemetry table and a photo table, renames the photos with a
standardized naming convention and invokes an external tagging tool.  This
file gives a shallow embedding of the data model and of the operations the
pipeline performs, and proves or refutes the frozen specification claims
about them.
-/

namespace UAS

/-- Fallible computations of the embedding are compared by decidable
equality. -/
instance {ε α : Type} [DecidableEq ε] [DecidableEq α] : DecidableEq (Except ε α) :=
  fun x y =>
    match x, y with
    | Except.ok a, Except.ok b =>
      if h : a = b then isTrue (by rw [h])
      else isFalse (fun hh => h (Except.ok.inj hh))
    | Except.error a, Except.error b =>
      if h : a = b then isTrue (by rw [h])
      else isFalse (fun hh => h (Except.error.inj hh))
    | Except.ok _, Except.error _ => isFalse (fun hh => Except.noConfusion hh)
    | Except.error _, Except.ok _ => isFalse (fun hh => Except.noConfusion hh)

/-! ### Time model

The notebook parses timestamps with two fixed strptime formats
(tfmt_gpx = YYYY-MM-DDTHH:MM:SS and tfmt_exif = YYYY:MM:DD HH:MM:SS),
converts them to Unix epoch nanoseconds (pandas int64 view) and formats
them back with iso_fmt = YYYYMMDDTHHMMSSZ. -/

/-- A parsed calendar timestamp (what datetime.datetime holds after a
successful strptime with second resolution). -/
structure DateTime where
  year : Nat
  month : Nat
  day : Nat
  hour : Nat
  minute : Nat
  second : Nat
deriving DecidableEq, Repr

/-- Numeric value of a decimal digit character, if it is one. -/
def digitVal (c : Char) : Option Nat :=
  if c.isDigit then some (c.toNat - 48) else none

/-- Two-digit decimal field of a strptime pattern. -/
def parse2 (a b : Char) : Option Nat :=
  match digitVal a, digitVal b with
  | some x, some y => some (10 * x + y)
  | _, _ => none

/-- Four-digit decimal field of a strptime pattern. -/
def parse4 (a b c d : Char) : Option Nat :=
  match digitVal a, digitVal b, digitVal c, digitVal d with
  | some x, some y, some z, some w => some (1000 * x + 100 * y + 10 * z + w)
  | _, _, _, _ => none

/-- Gregorian leap-year test, as used by datetime when validating a day. -/
def isLeap (y : Nat) : Bool :=
  y % 4 = 0 ∧ (y % 100 ≠ 0 ∨ y % 400 = 0)

/-- Number of days of a month, as used by datetime when validating a day. -/
def daysInMonth (y m : Nat) : Nat :=
  match m with
  | 1 => 31 | 2 => if isLeap y then 29 else 28 | 3 => 31 | 4 => 30
  | 5 => 31 | 6 => 30 | 7 => 31 | 8 => 31
  | 9 => 30 | 10 => 31 | 11 => 30 | 12 => 31
  | _ => 0

/-- Range validation performed by the datetime constructor after strptime
has matched the text. -/
def mkDateTime (yr mo da ho mi se : Nat) : Option DateTime :=
  if 1 ≤ mo ∧ mo ≤ 12 ∧ 1 ≤ da ∧ da ≤ daysInMonth yr mo ∧ ho ≤ 23 ∧ mi ≤ 59 ∧ se ≤ 59
  then some ⟨yr, mo, da, ho, mi, se⟩ else none

/-- datetime.strptime with the notebook's GPX time format
tfmt_gpx = YYYY-MM-DDTHH:MM:SS (cell that adds datetime_utc). -/
def strptimeGpx (s : String) : Option DateTime :=
  match s.data with
  | [y1, y2, y3, y4, '-', m1, m2, '-', d1, d2, 'T', h1, h2, ':', n1, n2, ':', s1, s2] =>
    match parse4 y1 y2 y3 y4, parse2 m1 m2, parse2 d1 d2,
        parse2 h1 h2, parse2 n1 n2, parse2 s1 s2 with
    | some yr, some mo, some da, some ho, some mi, some se => mkDateTime yr mo da ho mi se
    | _, _, _, _, _, _ => none
  | _ => none

/-- datetime.strptime with the notebook's EXIF time format
tfmt_exif = YYYY:MM:DD HH:MM:SS (photo dataframe cell). -/
def strptimeExif (s : String) : Option DateTime :=
  match s.data with
  | [y1, y2, y3, y4, ':', m1, m2, ':', d1, d2, ' ', h1, h2, ':', n1, n2, ':', s1, s2] =>
    match parse4 y1 y2 y3 y4, parse2 m1 m2, parse2 d1 d2,
        parse2 h1 h2, parse2 n1 n2, parse2 s1 s2 with
    | some yr, some mo, some da, some ho, some mi, some se => mkDateTime yr mo da ho mi se
    | _, _, _, _, _, _ => none
  | _ => none

/-- Days from 1970-01-01 to the given civil date (proleptic Gregorian),
the calendar arithmetic underlying the pandas datetime64 epoch view. -/
def daysFromCivil (y m d : Int) : Int :=
  let yy : Int := y - (if m ≤ 2 then 1 else 0)
  let era : Int := Int.fdiv yy 400
  let yoe : Int := yy - era * 400
  let mp : Int := (m + 9) % 12
  let doy : Int := Int.fdiv (153 * mp + 2) 5 + d - 1
  let doe : Int := yoe * 365 + Int.fdiv yoe 4 - Int.fdiv yoe 100 + doy
  era * 146097 + doe - 719468

/-- Seconds from the Unix epoch to a DateTime (UTC by the notebook's
operating convention). -/
def epochSeconds (dt : DateTime) : Int :=
  daysFromCivil dt.year dt.month dt.day * 86400
    + dt.hour * 3600 + dt.minute * 60 + dt.second

/-- The int64 value pandas stores for a missing datetime (NaT). -/
def natInt64 : Int := -9223372036854775808

/-- astype(np.int64) on a datetime64[ns] value: nanoseconds since the
epoch; a parsed second-resolution timestamp contributes no sub-second
part, and NaT views as the int64 minimum. -/
def datetimeToNs (o : Option DateTime) : Int :=
  match o with
  | none => natInt64
  | some dt => epochSeconds dt * 1000000000

/-- The digit character for n mod 10 (one position of a zero-padded
strftime field). -/
def digitChar (n : Nat) : Char :=
  Char.ofNat (48 + n % 10)

/-- strftime with the notebook's iso_fmt = YYYYMMDDTHHMMSSZ: four-digit
zero-padded year, two-digit zero-padded month, day, hour, minute and
second, with literal T and Z. -/
def isoFmt (dt : DateTime) : String :=
  ⟨[digitChar (dt.year / 1000), digitChar (dt.year / 100), digitChar (dt.year / 10),
    digitChar dt.year,
    digitChar (dt.month / 10), digitChar dt.month,
    digitChar (dt.day / 10), digitChar dt.day, 'T',
    digitChar (dt.hour / 10), digitChar dt.hour,
    digitChar (dt.minute / 10), digitChar dt.minute,
    digitChar (dt.second / 10), digitChar dt.second, 'Z']⟩

/-! ### Cell values and numeric coercion

pandas cells in the notebook hold either a float (after pd.to_numeric
succeeded), a raw string, or NaN.  A converted numeric cell is
represented by the source text it was parsed from. -/

/-- One cell of the telemetry dataframe. -/
inductive CellValue where
  | nan : CellValue
  | str : String → CellValue
  | num : String → CellValue
deriving DecidableEq, Repr

/-- Greedily take leading decimal digits. -/
def takeDigits (cs : List Char) : List Char × List Char :=
  (cs.takeWhile Char.isDigit, cs.dropWhile Char.isDigit)

/-- Exponent part of a float literal: nothing, or e/E with optional sign
and at least one digit. -/
def isExpPart (cs : List Char) : Bool :=
  match cs with
  | [] => true
  | e :: rest =>
    if e = 'e' ∨ e = 'E' then
      let rest2 := match rest with
        | c :: t => if c = '+' ∨ c = '-' then t else rest
        | [] => rest
      match takeDigits rest2 with
      | (ds, tl) => ¬ ds.isEmpty ∧ tl.isEmpty
    else false

/-- Mantissa and exponent of a float literal after the optional sign. -/
def isFloatBody (cs : List Char) : Bool :=
  let (ip, r1) := takeDigits cs
  match r1 with
  | '.' :: t =>
    let (fp, r2) := takeDigits t
    (¬ ip.isEmpty ∨ ¬ fp.isEmpty) ∧ isExpPart r2
  | _ => ¬ ip.isEmpty ∧ isExpPart r1

/-- Whether pd.to_numeric can parse the string as a number (Python float
literal: optional sign, digits with optional point, optional exponent). -/
def isNumeric (s : String) : Bool :=
  match s.data with
  | [] => false
  | c :: rest => if c = '+' ∨ c = '-' then isFloatBody rest else isFloatBody s.data

/-- pd.to_numeric(ser, errors=ignore): the conversion is all-or-nothing —
if every element parses the column becomes numeric, and if any element
fails the whole column is returned unchanged as strings. -/
def to_numeric_ignore (ser : List String) : List CellValue :=
  if ser.all isNumeric then ser.map CellValue.num else ser.map CellValue.str

/-- pd.to_numeric with the default errors=raise on one cell: a missing
value stays NaN, a present value must parse or the conversion of the
whole column raises. -/
def to_numeric_raise (v : Option String) : Except String CellValue :=
  match v with
  | none => Except.ok CellValue.nan
  | some s =>
    if isNumeric s then Except.ok (CellValue.num s)
    else Except.error ("Unable to parse string " ++ s)

/-! ### GPX parsing (Telemetry Extractor) -/

/-- One trkpt element of the GPX document: its attribute values in
document order (lxml Element.values(), normally lat then lon) and its
child elements as tag/text pairs in document order. -/
structure Trkpt where
  attrs : List String
  children : List (String × String)
deriving DecidableEq, Repr

/-- gpx_tag_to_pdseries from the notebook: the xpath
trk//trkpt//tag gathers, across the whole document in order, the text of
every element with the given tag, into one flat series.  Note the series
is NOT aligned per trackpoint: a trackpoint without the tag contributes
nothing at its own position. -/
def gpx_tag_to_pdseries (tps : List Trkpt) (tag : String) : List String :=
  (tps.map (fun p => (p.children.filter (fun c => c.fst = tag)).map Prod.snd)).flatten

/-- First-error sequencing of a column-building computation, as pandas
raises at the first failing conversion. -/
def mapExcept (f : α → Except String β) : List α → Except String (List β)
  | [] => Except.ok []
  | a :: l =>
    match f a with
    | Except.error e => Except.error e
    | Except.ok b =>
      match mapExcept f l with
      | Except.error e => Except.error e
      | Except.ok bs => Except.ok (b :: bs)

/-- Row construction of pd.DataFrame([e.values() for e in elist],
columns=[lat, lon]): a short row is padded with NaN on the right, a row
with more values than columns is a construction error. -/
def padRow (attrs : List String) : Except String (Option String × Option String) :=
  match attrs with
  | [] => Except.ok (none, none)
  | [a] => Except.ok (some a, none)
  | [a, b] => Except.ok (some a, some b)
  | _ => Except.error "2 columns passed, passed data had more columns"

/-- Joining a series of length m to a dataframe of n rows aligns by
integer index: positions past the series length become NaN and surplus
series entries are dropped. -/
def joinCol (n : Nat) (col : List CellValue) : List CellValue :=
  (col ++ List.replicate (n - col.length) CellValue.nan).take n

/-- The column the extractor stores for one tag of the taglist: the flat
document-order series, numerically coerced with errors=ignore, joined to
the n-row lat/lon frame by index. -/
def colFor (tps : List Trkpt) (tag : String) : List CellValue :=
  joinCol tps.length (to_numeric_ignore (gpx_tag_to_pdseries tps tag))

/-- The telemetry dataframe gpxdf right after the extraction cell: the
lat/lon frame joined with the seven tag columns. -/
structure GpxDf where
  lat : List CellValue
  lon : List CellValue
  time : List CellValue
  ele : List CellValue
  ele2 : List CellValue
  course : List CellValue
  roll : List CellValue
  pitch : List CellValue
  mode : List CellValue
deriving DecidableEq, Repr

/-- The GPX extraction cell: build the lat/lon frame from the trkpt
attribute values (to_numeric with errors=raise, so a present non-numeric
coordinate aborts the whole operation), then join each tag column of the
taglist. -/
def extractGpx (tps : List Trkpt) : Except String GpxDf :=
  match mapExcept padRow (tps.map Trkpt.attrs) with
  | Except.error e => Except.error e
  | Except.ok rows =>
    match mapExcept (fun r => to_numeric_raise r.fst) rows with
    | Except.error e => Except.error e
    | Except.ok lat =>
      match mapExcept (fun r => to_numeric_raise r.snd) rows with
      | Except.error e => Except.error e
      | Except.ok lon =>
        Except.ok
          { lat := lat, lon := lon,
            time := colFor tps "time", ele := colFor tps "ele",
            ele2 := colFor tps "ele2", course := colFor tps "course",
            roll := colFor tps "roll", pitch := colFor tps "pitch",
            mode := colFor tps "mode" }

/-- pd.to_datetime(gpxdf[time], format=tfmt_gpx): every present cell must
match the fixed format or the conversion raises; a NaN cell becomes NaT. -/
def toDatetime (col : List CellValue) : Except String (List (Option DateTime)) :=
  mapExcept
    (fun c =>
      match c with
      | CellValue.nan => Except.ok none
      | CellValue.str s =>
        match strptimeGpx s with
        | some dt => Except.ok (some dt)
        | none => Except.error ("time data " ++ s ++ " does not match format")
      | CellValue.num s =>
        match strptimeGpx s with
        | some dt => Except.ok (some dt)
        | none => Except.error ("time data " ++ s ++ " does not match format"))
    col

/-- The epoch_utc derivation: datetime_utc.astype(np.int64) viewed in
nanoseconds, floor-divided by 10^9 (Python //). -/
def epochUtcCol (dts : List (Option DateTime)) : List Int :=
  dts.map (fun o => Int.fdiv (datetimeToNs o) 1000000000)

/-- The GPX half of the pipeline up to the epoch_utc column: extract the
dataframe, parse its time column, derive epoch_utc. -/
def gpxEpochs (tps : List Trkpt) : Except String (List Int) :=
  match extractGpx tps with
  | Except.error e => Except.error e
  | Except.ok df =>
    match toDatetime df.time with
    | Except.error e => Except.error e
    | Except.ok dts => Except.ok (epochUtcCol dts)

/-! ### Photo Metadata Reader and Rename Dispatcher -/

/-- Python str.lower applied character by character. -/
def pyLower (s : String) : String :=
  ⟨s.data.map Char.toLower⟩

/-- Python str.endswith: the suffix characters close the string. -/
def endswith (s suffix : String) : Bool :=
  suffix.data.isSuffixOf s.data

/-- The image listing cell: the files of the folder listing whose
lower-cased name ends with .jpg. -/
def flist (files : List String) : List String :=
  files.filter (fun f => endswith (pyLower f) ".jpg")

/-- surveyid = fan.replace("-", ""): the field-activity number with every
dash removed. -/
def surveyid (fan : String) : String :=
  ⟨fan.data.filter (fun c => c ≠ '-')⟩

/-- namestr = "{}_{}{}_{}_{}".format(surveyid, flight_id, cam_id,
row.time_iso, img): the standardized photo filename. -/
def namestr (sv flight_id cam_id time_iso img : String) : String :=
  sv ++ "_" ++ flight_id ++ cam_id ++ "_" ++ time_iso ++ "_" ++ img

/-- One row of imgdf, the photo dataframe: initialized with NaN new_name
and coordinates, the original basename, the parsed DateTimeOriginal and
its epoch and ISO renderings. -/
structure ImgRow where
  new_name : Option String
  lat : CellValue
  lon : CellValue
  ele : CellValue
  time_utc : DateTime
  orig_name : String
  time_epoch : Int
  time_iso : String
  interpolated : Nat
deriving DecidableEq, Repr

/-- The imgdf construction cell, one row per listed photo, fed with the
file basename and its parsed DateTimeOriginal: new_name starts as NaN,
time_epoch is the int64 nanosecond view floor-divided by 10^9, time_iso
is strftime with iso_fmt. -/
def buildImgdf (files : List (String × DateTime)) : List ImgRow :=
  files.map (fun f =>
    { new_name := none, lat := CellValue.nan, lon := CellValue.nan,
      ele := CellValue.nan, time_utc := f.snd, orig_name := f.fst,
      time_epoch := Int.fdiv (datetimeToNs (some f.snd)) 1000000000,
      time_iso := isoFmt f.snd, interpolated := 0 })

/-- The first/last diagnostic prints of the CSV-export cell:
imgdf.orig_name.iloc[0] and .iloc[-1], which raise an IndexError on an
empty dataframe. -/
def firstLastDiag (imgdf : List ImgRow) :
    Except String ((String × DateTime) × (String × DateTime)) :=
  match imgdf.head?, imgdf.getLast? with
  | some f, some l => Except.ok ((f.orig_name, f.time_utc), (l.orig_name, l.time_utc))
  | _, _ => Except.error "single positional indexer is out-of-bounds"

/-- The new filenames the rename loop computes for a photo table. -/
def newNames (sv fl cm : String) (imgdf : List ImgRow) : List String :=
  imgdf.map (fun r => namestr sv fl cm r.time_iso r.orig_name)

/-- The filesystem state the rename step touches: the original image
folder and the output folder (none when the path does not exist yet).
Each folder is a list of filename/content pairs. -/
structure FS where
  imagefolder : List (String × Nat)
  imgoutdir : Option (List (String × Nat))
deriving DecidableEq, Repr

/-- Content of a file of a folder, if present. -/
def fsLookup (folder : List (String × Nat)) (nm : String) : Option Nat :=
  (folder.find? (fun e => e.fst = nm)).map Prod.snd

/-- Folder with a named file removed. -/
def fsRemove (folder : List (String × Nat)) (nm : String) : List (String × Nat) :=
  folder.filter (fun e => ¬ e.fst = nm)

/-- Folder with a file stored under a name, replacing any previous file
of that name. -/
def fsInsert (folder : List (String × Nat)) (nm : String) (c : Nat) :
    List (String × Nat) :=
  fsRemove folder nm ++ [(nm, c)]

/-- os.rename(os.path.join(imagefolder, img), os.path.join(imgoutdir,
nm)): moves the file named img OUT of the original image folder into the
output folder under the new name; missing source or missing destination
folder is an OSError. -/
def renameOne (fs : FS) (img nm : String) : Except String FS :=
  match fs.imgoutdir with
  | none => Except.error "No such file or directory"
  | some out =>
    match fsLookup fs.imagefolder img with
    | none => Except.error "No such file or directory"
    | some c =>
      Except.ok { imagefolder := fsRemove fs.imagefolder img,
                  imgoutdir := some (fsInsert out nm c) }

/-- The body of the rename loop over imgdf rows (rename_photos is True in
the notebook): compute namestr, move the file, record new_name in the
row. -/
def renameLoop (sv fl cm : String) (fs : FS) :
    List ImgRow → Except String (FS × List ImgRow)
  | [] => Except.ok (fs, [])
  | r :: rest =>
    let nm := namestr sv fl cm r.time_iso r.orig_name
    match renameOne fs r.orig_name nm with
    | Except.error e => Except.error e
    | Except.ok fs2 =>
      match renameLoop sv fl cm fs2 rest with
      | Except.error e => Except.error e
      | Except.ok (fs3, rows2) =>
        Except.ok (fs3, { r with new_name := some nm } :: rows2)

/-- The image-rename cell: if the output folder does not exist,
shutil.copytree stages a copy of the image folder there; then the loop
renames each photo of imgdf. -/
def renameStep (fs : FS) (imgdf : List ImgRow) (sv fl cm : String) :
    Except String (FS × List ImgRow) :=
  let fs1 : FS :=
    if fs.imgoutdir = none then
      { imagefolder := fs.imagefolder, imgoutdir := some fs.imagefolder }
    else fs
  renameLoop sv fl cm fs1 imgdf

/-! ### Pipeline order of the notebook cells -/

/-- The externally visible steps of the photo half of the notebook, in
cell order. -/
inductive Event where
  | geotagCall : String → Event
  | exportPhotoCsv : List ImgRow → Event
  | renamePhotos : Event
  | descTagCall : String → Event
deriving DecidableEq, Repr

/-- The photo half of the notebook in cell order: the exiftool geotag
call on the original image folder, the CSV export of the freshly built
imgdf, the rename loop, and the exiftool descriptive-tag call
(write_WHSC_exiftags) on the output folder. -/
def pipelineTrace (imagefolder imgoutdir : String)
    (files : List (String × DateTime)) : List Event :=
  [Event.geotagCall imagefolder,
   Event.exportPhotoCsv (buildImgdf files),
   Event.renamePhotos,
   Event.descTagCall imgoutdir]

/-! ### Concrete test inputs -/

/-- Two trackpoints, the first without an ele child, the second with
ele 7.0. -/
def tpsC1 : List Trkpt :=
  [{ attrs := ["42.0", "-70.0"],
     children := [("time", "2018-06-01T12:00:00")] },
   { attrs := ["42.0001", "-70.0001"],
     children := [("time", "2018-06-01T12:00:01"), ("ele", "7.0")] }]

/-- The dataframe the extractor produces on tpsC1. -/
def dfC1 : GpxDf :=
  { lat := [CellValue.num "42.0", CellValue.num "42.0001"],
    lon := [CellValue.num "-70.0", CellValue.num "-70.0001"],
    time := [CellValue.str "2018-06-01T12:00:00", CellValue.str "2018-06-01T12:00:01"],
    ele := [CellValue.num "7.0", CellValue.nan],
    ele2 := [CellValue.nan, CellValue.nan],
    course := [CellValue.nan, CellValue.nan],
    roll := [CellValue.nan, CellValue.nan],
    pitch := [CellValue.nan, CellValue.nan],
    mode := [CellValue.nan, CellValue.nan] }

/-- Three trackpoints one second apart, the example of the spec. -/
def tpsC5 : List Trkpt :=
  [{ attrs := ["42.0", "-70.0"], children := [("time", "2018-06-01T12:00:00")] },
   { attrs := ["42.0001", "-70.0001"], children := [("time", "2018-06-01T12:00:01")] },
   { attrs := ["42.0002", "-70.0002"], children := [("time", "2018-06-01T12:00:02")] }]

/-- Two trackpoints that both carry an ele child, the first with a
non-numeric text. -/
def tpsC6 : List Trkpt :=
  [{ attrs := ["42.0", "-70.0"],
     children := [("time", "2018-06-01T12:00:00"), ("ele", "abc")] },
   { attrs := ["42.0001", "-70.0001"],
     children := [("time", "2018-06-01T12:00:01"), ("ele", "5.0")] }]

/-- One trackpoint whose lat attribute value is not numeric. -/
def tpsBadLat : List Trkpt :=
  [{ attrs := ["bad", "-70.0"],
     children := [("time", "2018-06-01T12:00:00")] }]

/-- One photo with its parsed DateTimeOriginal. -/
def filesC2 : List (String × DateTime) :=
  [("IMG_0001.jpg", ⟨2018, 6, 1, 12, 0, 1⟩)]

/-- Input folder holding that one photo; no output folder yet. -/
def fsC2 : FS :=
  { imagefolder := [("IMG_0001.jpg", 7)], imgoutdir := none }

/-- Two photos captured in the same second with different names. -/
def filesC4 : List (String × DateTime) :=
  [("IMG_0001.jpg", ⟨2018, 6, 1, 12, 0, 1⟩),
   ("IMG_0002.jpg", ⟨2018, 6, 1, 12, 0, 1⟩)]

/-! ### Helper lemmas -/

/-- The columns of a successfully extracted dataframe are exactly the
index-joined tag series. -/
theorem extract_ok_cols (tps : List Trkpt) (df : GpxDf)
    (hok : extractGpx tps = Except.ok df) :
    df.time = colFor tps "time" ∧ df.ele = colFor tps "ele" ∧
    df.ele2 = colFor tps "ele2" ∧ df.course = colFor tps "course" ∧
    df.roll = colFor tps "roll" ∧ df.pitch = colFor tps "pitch" ∧
    df.mode = colFor tps "mode" := by
  unfold extractGpx at hok
  split at hok
  · exact Except.noConfusion hok
  · split at hok
    · exact Except.noConfusion hok
    · split at hok
      · exact Except.noConfusion hok
      · have hdf := Except.ok.inj hok
        rw [← hdf]
        exact ⟨rfl, rfl, rfl, rfl, rfl, rfl, rfl⟩

/-- Numeric coercion with errors=ignore never changes the column length. -/
theorem to_numeric_ignore_length (ser : List String) :
    (to_numeric_ignore ser).length = ser.length := by
  unfold to_numeric_ignore
  split <;> simp

/-- Index-joining a column one shorter than the frame pads exactly one
trailing NaN. -/
theorem joinCol_succ (n : Nat) (col : List CellValue) (h : col.length + 1 = n) :
    joinCol n col = col ++ [CellValue.nan] := by
  unfold joinCol
  have h1 : n - col.length = 1 := by omega
  rw [h1]
  have h2 : (col ++ List.replicate 1 CellValue.nan).length = n := by
    simp
    omega
  rw [← h2, List.take_length]
  rfl

/-- Index-joining a column of exactly the frame length is the identity. -/
theorem joinCol_exact (n : Nat) (col : List CellValue) (h : col.length = n) :
    joinCol n col = col := by
  unfold joinCol
  rw [h, Nat.sub_self]
  rw [List.replicate_zero, List.append_nil]
  exact h ▸ List.take_length col

/-- Length bookkeeping of the flat document-order tag series: when every
trackpoint has at most one child with the tag, the series length plus the
number of trackpoints lacking the tag is the number of trackpoints. -/
theorem series_length_gen (tps : List Trkpt) (tag : String)
    (h1 : ∀ p ∈ tps, (p.children.filter (fun c => c.fst = tag)).length ≤ 1) :
    (gpx_tag_to_pdseries tps tag).length +
      tps.countP (fun p => (p.children.filter (fun c => c.fst = tag)).isEmpty) =
      tps.length := by
  induction tps with
  | nil => rfl
  | cons p rest ih =>
    have hp := h1 p (by simp)
    have ih2 := ih (fun q hq => h1 q (by simp [hq]))
    unfold gpx_tag_to_pdseries at ih2 ⊢
    by_cases hz : (p.children.filter (fun c => c.fst = tag)).isEmpty
    · have hzero : (p.children.filter (fun c => c.fst = tag)).length = 0 := by
        simpa [List.isEmpty_iff, List.length_eq_zero] using hz
      simp [List.countP_cons, hz, hzero] at ih2 ⊢
      omega
    · have hone : (p.children.filter (fun c => c.fst = tag)).length = 1 := by
        have hnz : (p.children.filter (fun c => c.fst = tag)).length ≠ 0 := by
          simpa [List.isEmpty_iff, List.length_eq_zero] using hz
        omega
      simp [List.countP_cons, hz, hone] at ih2 ⊢
      omega

/-- The rendered iso_fmt timestamp always has sixteen characters. -/
theorem isoFmt_data_length (dt : DateTime) : (isoFmt dt).data.length = 16 := rfl

/-- The standardized filename determines the original filename when the
fixed identifiers agree and the two timestamp fields have equal length:
the original name is the part after the third separator. -/
theorem namestr_inj_orig (sv fl cm i1 i2 o1 o2 : String)
    (hlen : i1.data.length = i2.data.length)
    (h : namestr sv fl cm i1 o1 = namestr sv fl cm i2 o2) : o1 = o2 := by
  have hd := congrArg String.data h
  simp only [namestr, String.data_append, List.append_assoc] at hd
  have h1 := List.append_cancel_left hd
  have h2 := List.append_cancel_left h1
  have h3 := List.append_cancel_left h2
  have h4 := List.append_cancel_left h3
  have h5 := List.append_cancel_left h4
  have h6 := (List.append_inj h5 hlen).2
  have h7 := List.append_cancel_left h6
  exact String.ext h7

/-! ### Claims -/

/-- C1 (counterexample): on a GPX input whose FIRST trackpoint lacks the
ele child (tpsC1), the claim requires the first row's ele to be null and
the second row to keep its own value 7.0; the extractor instead packs
7.0 into the first row and leaves the null in the last row, because the
flat xpath series is joined by index. -/
theorem c1_counterexample :
    Except.map GpxDf.ele (extractGpx tpsC1) =
      Except.ok [CellValue.num "7.0", CellValue.nan] ∧
    Except.map GpxDf.ele (extractGpx tpsC1) ≠
      Except.ok [CellValue.nan, CellValue.num "7.0"] := by
  exact ⟨by decide, by decide⟩

/-- C1 (amended): when every trackpoint has at most one ele child and
exactly one trackpoint lacks it, the extractor still succeeds with one
row per trackpoint, but the ele column is the document-order series of
the PRESENT ele values packed into the leading rows, with the single
null always in the last row — per-row alignment is preserved only when
the trackpoint lacking ele is the last one. -/
theorem c1_ele_misalignment (tps : List Trkpt) (df : GpxDf)
    (hok : extractGpx tps = Except.ok df)
    (hmax : ∀ p ∈ tps, (p.children.filter (fun c => c.fst = "ele")).length ≤ 1)
    (hone : tps.countP
        (fun p => (p.children.filter (fun c => c.fst = "ele")).isEmpty) = 1) :
    df.ele = to_numeric_ignore (gpx_tag_to_pdseries tps "ele") ++ [CellValue.nan] ∧
    df.ele.length = tps.length := by
  have hele : df.ele = colFor tps "ele" := (extract_ok_cols tps df hok).2.1
  have hser := series_length_gen tps "ele" hmax
  rw [hone] at hser
  have hlen : (to_numeric_ignore (gpx_tag_to_pdseries tps "ele")).length + 1 =
      tps.length := by
    rw [to_numeric_ignore_length]; exact hser
  have hcol : colFor tps "ele" =
      to_numeric_ignore (gpx_tag_to_pdseries tps "ele") ++ [CellValue.nan] := by
    unfold colFor
    exact joinCol_succ tps.length _ hlen
  refine ⟨hele.trans hcol, ?_⟩
  rw [hele, hcol]
  simp
  omega

/-- C1 (witness): the amended statement evaluated on tpsC1. -/
theorem c1_witness :
    extractGpx tpsC1 = Except.ok dfC1 ∧
    (dfC1.ele = to_numeric_ignore (gpx_tag_to_pdseries tpsC1 "ele") ++ [CellValue.nan] ∧
     dfC1.ele.length = tpsC1.length) :=
  ⟨by decide, c1_ele_misalignment tpsC1 dfC1 (by decide) (by decide) (by decide)⟩

/-- C2 (code bug): the rename loop calls os.rename with its SOURCE path
inside the original image folder, so the run moves every photo out of
the input folder instead of renaming the staged copies: on a folder with
the single photo IMG_0001.jpg and a fresh output folder, after the
rename step the input folder no longer contains the photo, while the
output folder holds two files (the staged copy under the original name
and the moved original under the new name, the copy still retrievable
under the old name). -/
theorem c2_rename_moves_original :
    Except.map
      (fun r => (fsLookup r.fst.imagefolder "IMG_0001.jpg",
                 Option.map List.length r.fst.imgoutdir,
                 fsLookup (r.fst.imgoutdir.getD []) "IMG_0001.jpg"))
      (renameStep fsC2 (buildImgdf filesC2) "2018015FA" "f06" "r01") =
    Except.ok (none, some 2, some 7) := by
  decide

/-- C3: the standardized filename is a pure function of the survey,
flight and camera identifiers, the iso timestamp and the original
filename — equal inputs give equal names — and on the spec's example
(survey 2018-015-FA, flight f06, camera r01, capture time
2018:06:01 12:00:01, IMG_0001.jpg) it evaluates to
2018015FA_f06r01_20180601T120001Z_IMG_0001.jpg. -/
theorem c3_namestr_deterministic :
    (∀ sv1 fl1 cm1 iso1 img1 sv2 fl2 cm2 iso2 img2 : String,
        sv1 = sv2 → fl1 = fl2 → cm1 = cm2 → iso1 = iso2 → img1 = img2 →
        namestr sv1 fl1 cm1 iso1 img1 = namestr sv2 fl2 cm2 iso2 img2) ∧
    Option.map
        (fun dt => namestr (surveyid "2018-015-FA") "f06" "r01" (isoFmt dt)
          "IMG_0001.jpg")
        (strptimeExif "2018:06:01 12:00:01") =
      some "2018015FA_f06r01_20180601T120001Z_IMG_0001.jpg" := by
  constructor
  · intro sv1 fl1 cm1 iso1 img1 sv2 fl2 cm2 iso2 img2 h1 h2 h3 h4 h5
    rw [h1, h2, h3, h4, h5]
  · decide

/-- C3 (witness): determinism applied at the example inputs. -/
theorem c3_witness :
    namestr "2018015FA" "f06" "r01" "20180601T120001Z" "IMG_0001.jpg" =
      namestr "2018015FA" "f06" "r01" "20180601T120001Z" "IMG_0001.jpg" :=
  c3_namestr_deterministic.1 _ _ _ _ _ _ _ _ _ _ rfl rfl rfl rfl rfl

/-- C4: with fixed survey, flight and camera identifiers, a photo table
whose records have pairwise-distinct original filenames is assigned
pairwise-distinct standardized filenames: the iso timestamp rendered by
iso_fmt always has sixteen characters, so the original name is
recoverable from the computed name. -/
theorem c4_new_filenames_unique (sv fl cm : String)
    (files : List (String × DateTime))
    (h : (files.map Prod.fst).Pairwise (fun a b => a ≠ b)) :
    (newNames sv fl cm (buildImgdf files)).Pairwise (fun a b => a ≠ b) := by
  have hmap : newNames sv fl cm (buildImgdf files) =
      files.map (fun f => namestr sv fl cm (isoFmt f.snd) f.fst) := by
    simp [newNames, buildImgdf, List.map_map]
  rw [hmap, List.pairwise_map]
  rw [List.pairwise_map] at h
  refine h.imp ?_
  intro a b hne heq
  exact hne (namestr_inj_orig sv fl cm (isoFmt a.snd) (isoFmt b.snd) a.fst b.fst rfl heq)

/-- C4 (witness): two photos captured in the same second with different
original names receive different standardized names. -/
theorem c4_witness :
    (newNames "2018015FA" "f06" "r01" (buildImgdf filesC4)).Pairwise
      (fun a b => a ≠ b) :=
  c4_new_filenames_unique "2018015FA" "f06" "r01" filesC4 (by decide)

/-- C5: epoch_utc is the truncation of the parsed time to whole seconds
since the epoch — the int64 nanosecond view floor-divided by 10^9 gives
back exactly the calendar seconds, with no rounding — and on the spec's
three-trackpoint example the pipeline yields three rows whose epoch_utc
values differ by exactly one second each. -/
theorem c5_epoch_truncation :
    (∀ dt : DateTime,
        Int.fdiv (datetimeToNs (some dt)) 1000000000 = epochSeconds dt) ∧
    gpxEpochs tpsC5 = Except.ok [1527854400, 1527854401, 1527854402] ∧
    Except.map List.length (gpxEpochs tpsC5) = Except.ok 3 ∧
    Except.map (fun es => List.zipWith (fun a b => b - a) es es.tail)
        (gpxEpochs tpsC5) = Except.ok [1, 1] := by
  refine ⟨fun dt => Int.mul_fdiv_cancel _ (by norm_num), by decide, by decide, by decide⟩

/-- C6 (counterexample): on a GPX whose two trackpoints carry ele texts
abc and 5.0 (tpsC6), the claim requires the failing record's ele to be
null and the other to be a parsed number; pd.to_numeric with
errors=ignore instead returns the whole column unchanged, so both cells
stay raw strings and no null is introduced. -/
theorem c6_counterexample :
    Except.map GpxDf.ele (extractGpx tpsC6) =
      Except.ok [CellValue.str "abc", CellValue.str "5.0"] ∧
    Except.map GpxDf.ele (extractGpx tpsC6) ≠
      Except.ok [CellValue.nan, CellValue.num "5.0"] := by
  exact ⟨by decide, by decide⟩

/-- C6 (amended): a numeric parse failure in a non-coordinate tag column
leaves that entire column unconverted — every record keeps its raw
string, no cell degrades to null — and does not abort the extraction
(the tag columns of a successful extraction are always the index-joined
series, whatever their texts); a present non-numeric lat attribute, by
contrast, is a fatal error for the whole operation. -/
theorem c6_column_policy :
    (∀ (tps : List Trkpt) (tag : String),
        (gpx_tag_to_pdseries tps tag).length = tps.length →
        ¬ (gpx_tag_to_pdseries tps tag).all isNumeric = true →
        colFor tps tag = (gpx_tag_to_pdseries tps tag).map CellValue.str) ∧
    (∀ (tps : List Trkpt) (df : GpxDf), extractGpx tps = Except.ok df →
        df.ele = colFor tps "ele" ∧ df.ele2 = colFor tps "ele2" ∧
        df.course = colFor tps "course" ∧ df.roll = colFor tps "roll" ∧
        df.pitch = colFor tps "pitch" ∧ df.mode = colFor tps "mode") ∧
    extractGpx tpsBadLat = Except.error "Unable to parse string bad" := by
  refine ⟨?_, ?_, by decide⟩
  · intro tps tag hlen hfail
    unfold colFor to_numeric_ignore
    rw [if_neg hfail]
    apply joinCol_exact
    rw [List.length_map]
    exact hlen
  · intro tps df hok
    exact (extract_ok_cols tps df hok).2

/-- C6 (witness): the column policy evaluated on tpsC6, whose ele series
is [abc, 5.0]. -/
theorem c6_witness :
    colFor tpsC6 "ele" =
      List.map CellValue.str (gpx_tag_to_pdseries tpsC6 "ele") :=
  c6_column_policy.1 tpsC6 "ele" (by decide) (by decide)

/-- C7 (counterexample): the listing filter keeps only names whose
lower-cased form ends in .jpg, so a .jpeg file is NOT selected, contrary
to the claim that .jpeg is an accepted extension; upper-cased .JPG is
selected. -/
theorem c7_counterexample :
    flist ["photo.jpeg"] = [] ∧
    flist ["photo.jpeg"] ≠ ["photo.jpeg"] ∧
    flist ["photo.JPG"] = ["photo.JPG"] := by
  decide

/-- C7 (amended): the Photo Metadata Reader selects exactly the files of
the (non-recursive) listing whose name ends, case-insensitively, with
.jpg — and only .jpg: a name qualifies precisely when its lower-cased
character sequence has .jpg as a suffix. -/
theorem c7_jpg_only_selection (files : List String) (f : String) :
    f ∈ flist files ↔
      f ∈ files ∧ ∃ stem : List Char, stem ++ ".jpg".data = (pyLower f).data := by
  unfold flist endswith
  rw [List.mem_filter]
  constructor
  · rintro ⟨hmem, hsuf⟩
    exact ⟨hmem, List.isSuffixOf_iff_suffix.mp hsuf⟩
  · rintro ⟨hmem, stem, hstem⟩
    exact ⟨hmem, List.isSuffixOf_iff_suffix.mpr ⟨stem, hstem⟩⟩

/-- C7 (witness): the selection characterization applied to a single
upper-cased photo name. -/
theorem c7_witness : "photo.JPG" ∈ flist ["photo.JPG"] :=
  (c7_jpg_only_selection ["photo.JPG"] "photo.JPG").mpr
    ⟨by decide, "photo".data, by decide⟩

/-- C8 (counterexample): on an empty image folder the photo table is
built empty, but the reader's first/last-record diagnostic
(imgdf.orig_name.iloc[0] and iloc[-1]) raises an IndexError on the empty
table rather than completing without error as the claim requires. -/
theorem c8_counterexample :
    buildImgdf [] = [] ∧
    firstLastDiag (buildImgdf []) =
      Except.error "single positional indexer is out-of-bounds" :=
  ⟨rfl, rfl⟩

/-- C8 (amended): for an empty input folder the photo table is
constructed empty, the first/last diagnostic on it is an index error,
and the rename step performs no renames — though its staging copy still
creates the (empty) output folder, a side effect. -/
theorem c8_empty_folder (sv fl cm : String) (fs : FS)
    (hout : fs.imgoutdir = none) (hempty : fs.imagefolder = []) :
    buildImgdf [] = [] ∧
    (∃ e, firstLastDiag (buildImgdf []) = Except.error e) ∧
    renameStep fs (buildImgdf []) sv fl cm =
      Except.ok ({ imagefolder := [], imgoutdir := some [] }, []) := by
  obtain ⟨imgf, outd⟩ := fs
  simp only at hout hempty
  subst hout
  subst hempty
  exact ⟨rfl, ⟨_, rfl⟩, rfl⟩

/-- C8 (witness): the empty-folder behavior evaluated on the empty
filesystem state. -/
theorem c8_witness :
    buildImgdf [] = [] ∧
    (∃ e, firstLastDiag (buildImgdf []) = Except.error e) ∧
    renameStep { imagefolder := [], imgoutdir := none } (buildImgdf [])
        "2018015FA" "f06" "r01" =
      Except.ok ({ imagefolder := [], imgoutdir := some [] }, []) :=
  c8_empty_folder "2018015FA" "f06" "r01"
    { imagefolder := [], imgoutdir := none } rfl rfl

/-- C9 (counterexample): the notebook's cell order places the exiftool
geotag call FIRST, before the rename step, and targets it at the
original image folder, not the renamed output folder; only the
descriptive-tag call runs after the rename on the output folder. -/
theorem c9_counterexample :
    pipelineTrace "f1" "f1_new" [] =
      [Event.geotagCall "f1", Event.exportPhotoCsv [], Event.renamePhotos,
       Event.descTagCall "f1_new"] ∧
    ("f1" : String) ≠ "f1_new" :=
  ⟨rfl, by decide⟩

/-- C9 (amended): in every run, every geotag call precedes the rename
step and targets the original image folder, and every descriptive-tag
call follows the rename step and targets the renamed output folder. -/
theorem c9_geotag_before_rename (imagefolder imgoutdir : String)
    (files : List (String × DateTime)) :
    ∃ j : Nat, (pipelineTrace imagefolder imgoutdir files)[j]? = some Event.renamePhotos ∧
      (∀ n t, (pipelineTrace imagefolder imgoutdir files)[n]? =
          some (Event.geotagCall t) → t = imagefolder ∧ n < j) ∧
      (∀ n t, (pipelineTrace imagefolder imgoutdir files)[n]? =
          some (Event.descTagCall t) → t = imgoutdir ∧ j < n) := by
  refine ⟨2, rfl, ?_, ?_⟩
  · intro n t h
    match n with
    | 0 =>
      refine ⟨?_, by omega⟩
      have h1 := Option.some.inj h
      exact (Event.geotagCall.inj h1).symm
    | 1 => exact absurd (Option.some.inj h) (by simp [pipelineTrace])
    | 2 => exact absurd (Option.some.inj h) (by simp [pipelineTrace])
    | 3 => exact absurd (Option.some.inj h) (by simp [pipelineTrace])
    | (k + 4) => exact Option.noConfusion h
  · intro n t h
    match n with
    | 0 => exact absurd (Option.some.inj h) (by simp [pipelineTrace])
    | 1 => exact absurd (Option.some.inj h) (by simp [pipelineTrace])
    | 2 => exact absurd (Option.some.inj h) (by simp [pipelineTrace])
    | 3 =>
      refine ⟨?_, by omega⟩
      have h1 := Option.some.inj h
      exact (Event.descTagCall.inj h1).symm
    | (k + 4) => exact Option.noConfusion h

/-- C9 (witness): the ordering property evaluated at concrete folder
names. -/
theorem c9_witness :
    ∃ j : Nat, (pipelineTrace "f1" "f1_new" [])[j]? = some Event.renamePhotos ∧
      (∀ n t, (pipelineTrace "f1" "f1_new" [])[n]? =
          some (Event.geotagCall t) → t = "f1" ∧ n < j) ∧
      (∀ n t, (pipelineTrace "f1" "f1_new" [])[n]? =
          some (Event.descTagCall t) → t = "f1_new" ∧ j < n) :=
  c9_geotag_before_rename "f1" "f1_new" []

/-- C10: the photo CSV snapshot exported by the notebook is the freshly
built imgdf, in which every record's new_name is null, and the export
event precedes the rename event that later assigns the names — so the
assigned names are never in the photo CSV. -/
theorem c10_csv_new_name_null (imagefolder imgoutdir : String)
    (files : List (String × DateTime)) :
    (buildImgdf files).map ImgRow.new_name = List.replicate files.length none ∧
    (pipelineTrace imagefolder imgoutdir files)[1]? =
      some (Event.exportPhotoCsv (buildImgdf files)) ∧
    (pipelineTrace imagefolder imgoutdir files)[2]? = some Event.renamePhotos := by
  refine ⟨?_, rfl, rfl⟩
  induction files with
  | nil => rfl
  | cons f fl ih =>
    simp only [buildImgdf, List.map_cons, List.map_map] at ih ⊢
    rw [List.length_cons, List.replicate_succ]
    exact congrArg (List.cons none) ih

end UAS
